import Mathlib

/-!
Verification of the path-sandboxing policy gate and action dispatch of a
small automation service (`src/app.py`).

The embedding is shallow:
* Paths are `String`s; `enforce_security` mirrors the Python gate
  (string-prefix containment on the raw path plus an existence rule).
* The filesystem is a pair of pure maps (`exists`, `content`) keyed by raw
  path strings, standing for what `os.path.exists` / file reads observe.
* Each operation (`fetch_and_save_data`, `clone_git_repo`, …) is a pure
  function from its external collaborators and a filesystem to a `Step`:
  the outcome (`Except Err`), the resulting filesystem, and the trace of
  external side effects (network calls, subprocesses, filesystem writes).
* `normalize` is a lexical path resolver (splitting on `/`, dropping `.`
  and empty segments, folding `..`); it is the specification-side notion
  of "the path resolves to", used to state containment properties.  The
  gate itself never calls it, exactly as in the source.
-/

namespace TDS

/-! ## Path segments and lexical resolution -/

/-- Split a character list at `/` separators (keeping empty segments,
which are filtered later, as `os.path` resolution does). -/
def splitSlash : List Char → List Char → List (List Char)
  | [], acc => [acc.reverse]
  | c :: rest, acc =>
    if c = '/' then acc.reverse :: splitSlash rest [] else splitSlash rest (c :: acc)

/-- The meaningful segments of a path string: empty and `.` segments dropped. -/
def segments (p : String) : List (List Char) :=
  (splitSlash p.data []).filter (fun s => ¬ (s = [] ∨ s = ['.']))

/-- Resolve `..` segments against a stack of already-resolved segments
(at the root, `..` stays at the root, as for absolute POSIX paths). -/
def resolveStep (stack : List (List Char)) (seg : List Char) : List (List Char) :=
  if seg = ['.', '.'] then stack.dropLast else stack ++ [seg]

/-- Lexical normalization of an absolute path: the absolute,
`..`-resolved form (symlink-free approximation of OS resolution). -/
def normalize (p : String) : String :=
  "/" ++ String.intercalate "/" (((segments p).foldl resolveStep []).map (fun l => ⟨l⟩))

/-- Is `q` the sandbox root `/data` or a path-wise descendant of it?
This is the containment notion of the specification, applied to resolved paths. -/
def isUnderSandbox (q : String) : Bool :=
  q = "/data" || "/data/".data.isPrefixOf q.data

/-! ## Filesystem and effect model -/

/-- The observable filesystem state: existence and textual content per raw
path string (standing for what `os.path.exists` and file reads return). -/
structure FS where
  exists_ : String → Bool
  content : String → String

/-- The empty filesystem: nothing exists. -/
def fsEmpty : FS := ⟨fun _ => false, fun _ => ""⟩

/-- Mark `p` as an existing empty file (what `open(p, 'w')` does on entry). -/
def createEmpty (fs : FS) (p : String) : FS :=
  ⟨fun q => if q = p then true else fs.exists_ q,
   fun q => if q = p then "" else fs.content q⟩

/-- Write `s` as the content of `p` (the file exists afterwards). -/
def setContent (fs : FS) (p s : String) : FS :=
  ⟨fun q => if q = p then true else fs.exists_ q,
   fun q => if q = p then s else fs.content q⟩

/-- External side effects an operation can perform, in order. -/
inductive Effect
  | netGet (url : String)
  | subprocessRun (cmd : List String)
  | dbConnect (engine : String) (path : String)
  | fsRead (path : String)
  | fsWrite (path : String)
  deriving DecidableEq, Repr

/-- Python exception classes that reach the caller. -/
inductive Err
  | PermissionError (msg : String)
  | RuntimeError (msg : String)
  | TypeError (msg : String)
  | ValueError (msg : String)
  | CalledProcessError (cmd : List String)
  deriving DecidableEq, Repr

/-- Outcome of one operation: result, final filesystem, effect trace. -/
structure Step (α : Type) where
  val : Except Err α
  fs : FS
  effects : List Effect

/-! ## The policy gate (`enforce_security`, src/app.py lines 15–21) -/

/-- `enforce_security(filepath, allow_deletion=False)`:
deny unless the raw string starts with `/data`; deny when the path exists
unless `allow_deletion`; otherwise return `True`. -/
def enforce_security (fs : FS) (filepath : String) (allow_deletion : Bool := false) :
    Except Err Bool :=
  if ¬ ("/data".data.isPrefixOf filepath.data) then
    .error (.PermissionError ("Access outside /data is not allowed: " ++ filepath))
  else if ¬ allow_deletion && fs.exists_ filepath then
    .error (.PermissionError ("Deletion/modification of existing files is not allowed: " ++ filepath))
  else
    .ok true

/-- The gate as a step on the world: it only stats, so the filesystem is
untouched and no external effect is recorded. -/
def gateStep (fs : FS) (filepath : String) (allow_deletion : Bool) : Step Bool :=
  ⟨enforce_security fs filepath allow_deletion, fs, []⟩

/-! ## JSON values and `json.dump(..., indent=4)` -/

/-- JSON values as returned by `response.json()`. -/
inductive JsonVal
  | obj (fields : List (String × JsonVal))
  | arr (elems : List JsonVal)
  | str (s : String)
  | num (n : Int)
  | boolean (b : Bool)
  | null

/-- Minimal JSON string escaping (backslash and double quote). -/
def jsonEscape (s : String) : String :=
  ⟨s.data.foldr (fun c acc => if c = '\\' ∨ c = '"' then '\\' :: c :: acc else c :: acc) []⟩

/-- `n` spaces. -/
def spaces (n : Nat) : String := ⟨List.replicate n ' '⟩

mutual
/-- `json.dumps(v, indent=4)` at nesting level `lvl`. -/
def dumpsV (lvl : Nat) : JsonVal → String
  | .obj fields =>
    match fields with
    | [] => "\x7b\x7d"
    | _ => "\x7b\n" ++ dumpsFields (lvl + 1) fields ++ "\n" ++ spaces (4 * lvl) ++ "\x7d"
  | .arr elems =>
    match elems with
    | [] => "[]"
    | _ => "[\n" ++ dumpsElems (lvl + 1) elems ++ "\n" ++ spaces (4 * lvl) ++ "]"
  | .str s => "\"" ++ jsonEscape s ++ "\""
  | .num n => toString n
  | .boolean b => if b then "true" else "false"
  | .null => "null"

/-- The `"key": value` lines of an object, comma-separated. -/
def dumpsFields (lvl : Nat) : List (String × JsonVal) → String
  | [] => ""
  | [(k, v)] => spaces (4 * lvl) ++ "\"" ++ jsonEscape k ++ "\": " ++ dumpsV lvl v
  | (k, v) :: rest =>
    spaces (4 * lvl) ++ "\"" ++ jsonEscape k ++ "\": " ++ dumpsV lvl v ++ ",\n" ++
      dumpsFields lvl rest

/-- The element lines of an array, comma-separated. -/
def dumpsElems (lvl : Nat) : List JsonVal → String
  | [] => ""
  | [v] => spaces (4 * lvl) ++ dumpsV lvl v
  | v :: rest => spaces (4 * lvl) ++ dumpsV lvl v ++ ",\n" ++ dumpsElems lvl rest
end

/-- Is the value a Python `dict` after `response.json()`? -/
def JsonVal.isObj : JsonVal → Bool
  | .obj _ => true
  | _ => false

/-- Is the value a Python `str` after `response.json()`? -/
def JsonVal.isStr : JsonVal → Bool
  | .str _ => true
  | _ => false

/-! ## External collaborators -/

/-- An HTTP response as observed through `requests`:
status code, the `Content-Type` header (empty when absent), the body text,
and the body parsed as JSON (`none` when `response.json()` would raise). -/
structure HttpResponse where
  status_code : Nat
  content_type : String
  text : String
  jsonBody : Option JsonVal

/-- Is `pat` an infix of `s`? (the Python string test `pat in s`.) -/
def hasInfix (pat : List Char) : List Char → Bool
  | [] => pat.isEmpty
  | c :: rest => pat.isPrefixOf (c :: rest) || hasInfix pat rest

/-! ## Operations (src/app.py) -/

/-- `fetch_and_save_data(url, save_path)` (lines 24–33): gate the save
path, GET the url, fail on non-200, parse JSON when the `Content-Type`
contains `application/json` (else take the text), open the file for
writing (creating it empty), then `json.dump` a dict with `indent=4` or
`file.write` the value — which raises `TypeError` for a non-str,
non-dict value, leaving the freshly created file empty. -/
def fetch_and_save_data (http : String → HttpResponse) (fs : FS)
    (url save_path : String) : Step Unit :=
  match enforce_security fs save_path false with
  | .error e => ⟨.error e, fs, []⟩
  | .ok _ =>
    let response := http url
    if response.status_code ≠ 200 then
      ⟨.error (.RuntimeError ("Failed to fetch data. HTTP " ++
          toString response.status_code ++ ": " ++ response.text)), fs,
        [.netGet url]⟩
    else if hasInfix "application/json".data response.content_type.data then
      match response.jsonBody with
      | none => ⟨.error (.ValueError "No JSON object could be decoded"), fs, [.netGet url]⟩
      | some data =>
        match data with
        | .obj fields =>
          ⟨.ok (), setContent fs save_path (dumpsV 0 (.obj fields)),
            [.netGet url, .fsWrite save_path]⟩
        | .str s =>
          ⟨.ok (), setContent fs save_path s, [.netGet url, .fsWrite save_path]⟩
        | _ =>
          ⟨.error (.TypeError "write() argument must be str"),
            createEmpty fs save_path, [.netGet url, .fsWrite save_path]⟩
    else
      ⟨.ok (), setContent fs save_path response.text, [.netGet url, .fsWrite save_path]⟩

/-- `clone_git_repo(repo_url, commit_message)` (lines 36–44): gate the
fixed path `/data/repo`, `git clone` when absent, then `git add .` and
`git commit`.  The collaborator `run` reports whether a subprocess exits
zero (`check=True` raises otherwise). -/
def clone_git_repo (run : List String → Bool) (fs : FS)
    (repo_url commit_message : String) : Step Unit :=
  let repo_path := "/data/repo"
  match enforce_security fs repo_path false with
  | .error e => ⟨.error e, fs, []⟩
  | .ok _ =>
    let cloneCmd := ["git", "clone", repo_url, repo_path]
    let addCmd := ["git", "-C", repo_path, "add", "."]
    let commitCmd := ["git", "-C", repo_path, "commit", "-m", commit_message]
    if fs.exists_ repo_path then
      if ¬ run addCmd then ⟨.error (.CalledProcessError addCmd), fs, [.subprocessRun addCmd]⟩
      else if ¬ run commitCmd then
        ⟨.error (.CalledProcessError commitCmd), fs, [.subprocessRun addCmd, .subprocessRun commitCmd]⟩
      else ⟨.ok (), fs, [.subprocessRun addCmd, .subprocessRun commitCmd]⟩
    else
      if ¬ run cloneCmd then ⟨.error (.CalledProcessError cloneCmd), fs, [.subprocessRun cloneCmd]⟩
      else
        let fs1 := createEmpty fs repo_path
        if ¬ run addCmd then
          ⟨.error (.CalledProcessError addCmd), fs1, [.subprocessRun cloneCmd, .subprocessRun addCmd]⟩
        else if ¬ run commitCmd then
          ⟨.error (.CalledProcessError commitCmd), fs1,
            [.subprocessRun cloneCmd, .subprocessRun addCmd, .subprocessRun commitCmd]⟩
        else ⟨.ok (), fs1,
          [.subprocessRun cloneCmd, .subprocessRun addCmd, .subprocessRun commitCmd]⟩

/-- `execute_sql_query(db_path, query, output_filename)` (lines 47–65):
gate both paths, connect with sqlite3 for a `.db` suffix else duckdb,
run the query through the collaborator `exec` (its rows already zipped
with column names), wrap any failure as `RuntimeError`, then write the
rows pretty-printed to the output file. -/
def execute_sql_query (execQ : String → String → Except String (List (List (String × JsonVal))))
    (fs : FS) (db_path query output_filename : String) : Step Unit :=
  match enforce_security fs db_path false with
  | .error e => ⟨.error e, fs, []⟩
  | .ok _ =>
    match enforce_security fs output_filename false with
    | .error e => ⟨.error e, fs, []⟩
    | .ok _ =>
      let engine := if ".db".data.isSuffixOf db_path.data then "sqlite3" else "duckdb"
      match execQ db_path query with
      | .error msg =>
        ⟨.error (.RuntimeError ("SQL execution failed: " ++ msg)), fs,
          [.dbConnect engine db_path]⟩
      | .ok rows =>
        let output_data : JsonVal := .arr (rows.map .obj)
        ⟨.ok (), setContent fs output_filename (dumpsV 0 output_data),
          [.dbConnect engine db_path, .fsWrite output_filename]⟩

/-- `scrape_website(url, output_filename)` (lines 68–79): gate the output
path, GET the url, fail on non-200, extract the text through the
collaborator and write it. -/
def scrape_website (http : String → HttpResponse) (extractText : String → String)
    (fs : FS) (url output_filename : String) : Step Unit :=
  match enforce_security fs output_filename false with
  | .error e => ⟨.error e, fs, []⟩
  | .ok _ =>
    let response := http url
    if response.status_code ≠ 200 then
      ⟨.error (.RuntimeError ("Failed to scrape data. HTTP " ++ toString response.status_code)),
        fs, [.netGet url]⟩
    else
      ⟨.ok (), setContent fs output_filename (extractText response.text),
        [.netGet url, .fsWrite output_filename]⟩

/-- `process_image(image_path, output_path, resize)` (lines 82–92): gate
both paths, then open/resize/save through the collaborator (which yields
the saved bytes), wrapping any failure as `RuntimeError`. -/
def process_image (imgRun : String → Option (Nat × Nat) → Except String String)
    (fs : FS) (image_path output_path : String) (resize : Option (Nat × Nat)) : Step Unit :=
  match enforce_security fs image_path false with
  | .error e => ⟨.error e, fs, []⟩
  | .ok _ =>
    match enforce_security fs output_path false with
    | .error e => ⟨.error e, fs, []⟩
    | .ok _ =>
      match imgRun image_path resize with
      | .error msg =>
        ⟨.error (.RuntimeError ("Image processing failed: " ++ msg)), fs, [.fsRead image_path]⟩
      | .ok bytes =>
        ⟨.ok (), setContent fs output_path bytes, [.fsRead image_path, .fsWrite output_path]⟩

/-- `transcribe_audio(audio_path, output_path)` (lines 95–103): gate both
paths, transcribe through the collaborator, write the text. -/
def transcribe_audio (transcribe : String → String) (fs : FS)
    (audio_path output_path : String) : Step Unit :=
  match enforce_security fs audio_path false with
  | .error e => ⟨.error e, fs, []⟩
  | .ok _ =>
    match enforce_security fs output_path false with
    | .error e => ⟨.error e, fs, []⟩
    | .ok _ =>
      let text := transcribe audio_path
      ⟨.ok (), setContent fs output_path text, [.fsRead audio_path, .fsWrite output_path]⟩

/-- `convert_md_to_html(md_path, output_path)` (lines 106–116): gate both
paths, read the markdown (a missing source is a wrapped failure), render
through the collaborator, write the html. -/
def convert_md_to_html (render : String → String) (fs : FS)
    (md_path output_path : String) : Step Unit :=
  match enforce_security fs md_path false with
  | .error e => ⟨.error e, fs, []⟩
  | .ok _ =>
    match enforce_security fs output_path false with
    | .error e => ⟨.error e, fs, []⟩
    | .ok _ =>
      if ¬ fs.exists_ md_path then
        ⟨.error (.RuntimeError "Markdown conversion failed: file not found"), fs, [.fsRead md_path]⟩
      else
        let html := render (fs.content md_path)
        ⟨.ok (), setContent fs output_path html, [.fsRead md_path, .fsWrite output_path]⟩

/-! ## The `/filter_csv` HTTP route (lines 121–136) -/

/-- A parsed CSV as `pandas.read_csv` yields it: column names and rows
(each row an association of column name to cell value). -/
structure CsvTable where
  columns : List String
  rows : List (List (String × String))

/-- The JSON body of an HTTP response from the route. -/
inductive RespBody
  | records (rows : List (List (String × String)))
  | errMsg (msg : String)

/-- The body of the `filter_csv` route handler: gate the csv path
(outside the `try`, so a denial propagates as a raised exception), then
read the table, answer 400 for an unknown column, 500 for a read
failure, and 200 with the filtered records otherwise. -/
def filter_csv_handler (readCsv : String → Except String CsvTable) (fs : FS)
    (csv_path filter_column filter_value : String) : Step (Nat × RespBody) :=
  match enforce_security fs csv_path false with
  | .error e => ⟨.error e, fs, []⟩
  | .ok _ =>
    match readCsv csv_path with
    | .error msg => ⟨.ok (500, .errMsg msg), fs, [.fsRead csv_path]⟩
    | .ok df =>
      if ¬ (filter_column ∈ df.columns) then
        ⟨.ok (400, .errMsg ("Column \x27" ++ filter_column ++ "\x27 does not exist")), fs,
          [.fsRead csv_path]⟩
      else
        ⟨.ok (200, .records (df.rows.filter
            (fun row => List.lookup filter_column row = some filter_value))), fs,
          [.fsRead csv_path]⟩

/-- Flask turns an exception escaping a route handler into a
`500 Internal Server Error` response. -/
def flask_response (s : Step (Nat × RespBody)) : (Nat × RespBody) × List Effect :=
  match s.val with
  | .ok r => (r, s.effects)
  | .error _ => ((500, .errMsg "Internal Server Error"), s.effects)

/-- The route as observed by an HTTP client: status, body, effect trace. -/
def filter_csv (readCsv : String → Except String CsvTable) (fs : FS)
    (csv_path filter_column filter_value : String) : (Nat × RespBody) × List Effect :=
  flask_response (filter_csv_handler readCsv fs csv_path filter_column filter_value)

/-- 4xx status codes. -/
def isClientError (n : Nat) : Bool := 400 ≤ n && n < 500

/-- 5xx status codes. -/
def isServerError (n : Nat) : Bool := 500 ≤ n && n < 600

/-! ## Specification-side path predicates -/

/-- A clean relative part: every `/`-separated segment is nonempty and
neither `.` nor `..`. -/
def cleanRel (s : String) : Bool :=
  (splitSlash s.data []).all (fun seg => ¬ (seg = [] ∨ seg = ['.'] ∨ seg = ['.', '.']))

/-- A canonical path strictly inside the sandbox root: `/data/` followed
by a clean relative part, so the raw string and its resolved form agree
and it denotes a proper descendant of `/data`. -/
def strictlyInsideSandbox (p : String) : Prop :=
  ∃ s, cleanRel s = true ∧ p = "/data/" ++ s

/-- A step that aborted at the policy gate: the outcome is a
`PermissionError`, the filesystem is untouched, and no external effect
(network call, subprocess, filesystem write) was performed. -/
def policyAborted {α : Type} (s : Step α) (fs : FS) : Prop :=
  (∃ m, s.val = .error (.PermissionError m)) ∧ s.fs = fs ∧ s.effects = []

/-! ## Concrete scenario data -/

/-- HTTP collaborator answering 200 with the JSON object body `{"a": 1}`. -/
def httpJsonA : String → HttpResponse :=
  fun _ => ⟨200, "application/json", "\x7b\"a\": 1\x7d", some (.obj [("a", .num 1)])⟩

/-- First dispatch of the fetch-and-save scenario. -/
def c6first : Step Unit :=
  fetch_and_save_data httpJsonA fsEmpty "http://x/ok" "/data/out.json"

/-- Second, identical dispatch, on the filesystem the first left behind. -/
def c6second : Step Unit :=
  fetch_and_save_data httpJsonA c6first.fs "http://x/ok" "/data/out.json"

/-- CSV collaborator: a one-column table with a single row. -/
def csvStub : String → Except String CsvTable :=
  fun _ => .ok ⟨["a"], [[("a", "1")]]⟩

/-! ## Gate lemmas -/

/-- Every denial of the gate is a `PermissionError`. -/
theorem enforce_security_error_perm (fs : FS) (p : String) (a : Bool) (e : Err)
    (h : enforce_security fs p a = .error e) : ∃ m, e = .PermissionError m := by
  unfold enforce_security at h
  split at h
  · exact ⟨_, (Except.error.inj h).symm⟩
  · split at h
    · exact ⟨_, (Except.error.inj h).symm⟩
    · exact absurd h (by simp)

/-- With `allow_deletion = false`, an existing path is always denied. -/
theorem enforce_security_denies_existing (fs : FS) (p : String)
    (h : fs.exists_ p = true) :
    ∃ m, enforce_security fs p false = .error (.PermissionError m) := by
  unfold enforce_security
  split
  · exact ⟨_, rfl⟩
  · rw [if_pos (by simp [h])]
    exact ⟨_, rfl⟩

/-- Weakened form of the previous lemma, as a bare existence of a denial. -/
theorem exists_err_of_existing (fs : FS) (p : String) (h : fs.exists_ p = true) :
    ∃ e, enforce_security fs p false = .error e := by
  obtain ⟨m, hm⟩ := enforce_security_denies_existing fs p h
  exact ⟨_, hm⟩

/-- The gate either returns `.ok true` or a `PermissionError`. -/
theorem enforce_security_cases (fs : FS) (p : String) (a : Bool) :
    enforce_security fs p a = .ok true ∨
    ∃ m, enforce_security fs p a = .error (.PermissionError m) := by
  unfold enforce_security
  split
  · exact .inr ⟨_, rfl⟩
  · split
    · exact .inr ⟨_, rfl⟩
    · exact .inl rfl

/-- `/data` is a string prefix of `/data/…`. -/
theorem data_isPrefix (s : String) :
    "/data".data.isPrefixOf ("/data/" ++ s).data = true := by
  rw [String.data_append]
  rfl

/-! ## Abort lemmas -/

/-- A step equal to a pure gate denial is policy-aborted. -/
theorem policyAborted_of_eq {α : Type} (fs : FS) (s : Step α) (m : String)
    (h : s = ⟨.error (.PermissionError m), fs, []⟩) : policyAborted s fs := by
  subst h
  exact ⟨⟨m, rfl⟩, rfl, rfl⟩

/-- An operation whose single declared path check denies is aborted. -/
theorem abort_one (fs : FS) (p : String) {α : Type} (s : Step α)
    (h1 : ∀ e, enforce_security fs p false = .error e → s = ⟨.error e, fs, []⟩)
    (hd : ∃ e, enforce_security fs p false = .error e) :
    policyAborted s fs := by
  obtain ⟨e, he⟩ := hd
  obtain ⟨m, rfl⟩ := enforce_security_error_perm _ _ _ _ he
  exact policyAborted_of_eq fs s m (h1 _ he)

/-- An operation with two declared path checks, run in order, is aborted
whenever either check denies. -/
theorem abort_two (fs : FS) (p1 p2 : String) {α : Type} (s : Step α)
    (h1 : ∀ e, enforce_security fs p1 false = .error e → s = ⟨.error e, fs, []⟩)
    (h2 : ∀ e, enforce_security fs p1 false = .ok true →
      enforce_security fs p2 false = .error e → s = ⟨.error e, fs, []⟩)
    (hd : (∃ e, enforce_security fs p1 false = .error e) ∨
      (∃ e, enforce_security fs p2 false = .error e)) :
    policyAborted s fs := by
  rcases enforce_security_cases fs p1 false with hok | ⟨m, he⟩
  · rcases hd with ⟨e, he⟩ | ⟨e, he⟩
    · rw [hok] at he
      exact absurd he (by simp)
    · obtain ⟨m, rfl⟩ := enforce_security_error_perm _ _ _ _ he
      exact policyAborted_of_eq fs s m (h2 _ hok he)
  · exact policyAborted_of_eq fs s m (h1 _ he)

/-! ## Per-operation gate-denial lemmas -/

/-- `fetch_and_save_data` returns the denial of its save-path check. -/
theorem fetch_gate (http : String → HttpResponse) (fs : FS) (url sp : String)
    (e : Err) (h : enforce_security fs sp false = .error e) :
    fetch_and_save_data http fs url sp = ⟨.error e, fs, []⟩ := by
  unfold fetch_and_save_data
  rw [h]

/-- `clone_git_repo` returns the denial of its repo-path check. -/
theorem clone_gate (run : List String → Bool) (fs : FS) (u msg : String)
    (e : Err) (h : enforce_security fs "/data/repo" false = .error e) :
    clone_git_repo run fs u msg = ⟨.error e, fs, []⟩ := by
  unfold clone_git_repo
  simp only [h]

/-- `execute_sql_query` returns the denial of its db-path check. -/
theorem sql_gate_db (execQ : String → String → Except String (List (List (String × JsonVal))))
    (fs : FS) (db q out : String) (e : Err)
    (h : enforce_security fs db false = .error e) :
    execute_sql_query execQ fs db q out = ⟨.error e, fs, []⟩ := by
  unfold execute_sql_query
  rw [h]

/-- `execute_sql_query` returns the denial of its output-path check. -/
theorem sql_gate_out (execQ : String → String → Except String (List (List (String × JsonVal))))
    (fs : FS) (db q out : String) (e : Err)
    (h1 : enforce_security fs db false = .ok true)
    (h2 : enforce_security fs out false = .error e) :
    execute_sql_query execQ fs db q out = ⟨.error e, fs, []⟩ := by
  unfold execute_sql_query
  rw [h1, h2]

/-- `scrape_website` returns the denial of its output-path check. -/
theorem scrape_gate (http : String → HttpResponse) (ext : String → String)
    (fs : FS) (url out : String) (e : Err)
    (h : enforce_security fs out false = .error e) :
    scrape_website http ext fs url out = ⟨.error e, fs, []⟩ := by
  unfold scrape_website
  rw [h]

/-- `process_image` returns the denial of its image-path check. -/
theorem image_gate_in (img : String → Option (Nat × Nat) → Except String String)
    (fs : FS) (ip outp : String) (r : Option (Nat × Nat)) (e : Err)
    (h : enforce_security fs ip false = .error e) :
    process_image img fs ip outp r = ⟨.error e, fs, []⟩ := by
  unfold process_image
  rw [h]

/-- `process_image` returns the denial of its output-path check. -/
theorem image_gate_out (img : String → Option (Nat × Nat) → Except String String)
    (fs : FS) (ip outp : String) (r : Option (Nat × Nat)) (e : Err)
    (h1 : enforce_security fs ip false = .ok true)
    (h2 : enforce_security fs outp false = .error e) :
    process_image img fs ip outp r = ⟨.error e, fs, []⟩ := by
  unfold process_image
  rw [h1, h2]

/-- `transcribe_audio` returns the denial of its audio-path check. -/
theorem audio_gate_in (tr : String → String) (fs : FS) (ap outp : String) (e : Err)
    (h : enforce_security fs ap false = .error e) :
    transcribe_audio tr fs ap outp = ⟨.error e, fs, []⟩ := by
  unfold transcribe_audio
  rw [h]

/-- `transcribe_audio` returns the denial of its output-path check. -/
theorem audio_gate_out (tr : String → String) (fs : FS) (ap outp : String) (e : Err)
    (h1 : enforce_security fs ap false = .ok true)
    (h2 : enforce_security fs outp false = .error e) :
    transcribe_audio tr fs ap outp = ⟨.error e, fs, []⟩ := by
  unfold transcribe_audio
  rw [h1, h2]

/-- `convert_md_to_html` returns the denial of its source-path check. -/
theorem md_gate_in (rd : String → String) (fs : FS) (mp outp : String) (e : Err)
    (h : enforce_security fs mp false = .error e) :
    convert_md_to_html rd fs mp outp = ⟨.error e, fs, []⟩ := by
  unfold convert_md_to_html
  rw [h]

/-- `convert_md_to_html` returns the denial of its output-path check. -/
theorem md_gate_out (rd : String → String) (fs : FS) (mp outp : String) (e : Err)
    (h1 : enforce_security fs mp false = .ok true)
    (h2 : enforce_security fs outp false = .error e) :
    convert_md_to_html rd fs mp outp = ⟨.error e, fs, []⟩ := by
  unfold convert_md_to_html
  rw [h1, h2]

/-- `filter_csv_handler` raises the denial of its csv-path check. -/
theorem csv_gate (rc : String → Except String CsvTable) (fs : FS)
    (cp c v : String) (e : Err)
    (h : enforce_security fs cp false = .error e) :
    filter_csv_handler rc fs cp c v = ⟨.error e, fs, []⟩ := by
  unfold filter_csv_handler
  rw [h]

/-! ## Claims -/

/-- C1: the specification requires containment to be decided on the
normalized, symlink-resolved path, so that `/data/../etc/…` is denied.
The code checks `startswith('/data')` on the raw string instead: the
path `/data/../etc/absent` resolves to `/etc/absent`, outside the
sandbox, yet the gate permits it for every intent (both values of
`allow_deletion`) whenever the resolved target does not exist. -/
theorem c1_traversal_escape_permitted :
    normalize "/data/../etc/absent" = "/etc/absent" ∧
    isUnderSandbox (normalize "/data/../etc/absent") = false ∧
    enforce_security fsEmpty "/data/../etc/absent" false = .ok true ∧
    enforce_security fsEmpty "/data/../etc/absent" true = .ok true :=
  ⟨rfl, rfl, rfl, rfl⟩

/-- C3: the specification says a `Read` check never evaluates existence,
permitting any in-sandbox path.  The code has no intent parameter: with
the default `allow_deletion=False` it denies every existing path, so a
read target that exists inside the sandbox is rejected by the gate.
(The other half of the claim does hold: a missing read target passes
the gate and fails downstream as a wrapped `RuntimeError`, shown here
for `run-sql-query` on a missing database.) -/
theorem c3_read_of_existing_path_denied :
    ((setContent fsEmpty "/data/input.csv" "a,b").exists_ "/data/input.csv" = true ∧
      enforce_security (setContent fsEmpty "/data/input.csv" "a,b") "/data/input.csv" false =
        .error (.PermissionError
          "Deletion/modification of existing files is not allowed: /data/input.csv")) ∧
    execute_sql_query (fun _ _ => .error "no such table: t") fsEmpty
        "/data/missing.db" "SELECT * FROM t" "/data/out.json" =
      ⟨.error (.RuntimeError "SQL execution failed: no such table: t"), fsEmpty,
        [.dbConnect "sqlite3" "/data/missing.db"]⟩ :=
  ⟨⟨rfl, rfl⟩, rfl⟩

/-- C4: for a canonical path strictly inside the sandbox, `WriteNew`
(the default `allow_deletion=False` check) permits exactly when the
path does not exist, and denies with a `PermissionError` when it does. -/
theorem c4_write_new_exactly_when_absent (fs : FS) (p : String)
    (h : strictlyInsideSandbox p) :
    (fs.exists_ p = false → enforce_security fs p false = .ok true) ∧
    (fs.exists_ p = true → enforce_security fs p false =
      .error (.PermissionError
        ("Deletion/modification of existing files is not allowed: " ++ p))) := by
  obtain ⟨s, -, rfl⟩ := h
  constructor <;> intro hex <;>
    simp [enforce_security, data_isPrefix, hex]

/-- Witness for C4 at `/data/out.json`, absent and present. -/
theorem c4_write_new_exactly_when_absent_witness :
    enforce_security fsEmpty "/data/out.json" false = .ok true ∧
    enforce_security (setContent fsEmpty "/data/out.json" "x") "/data/out.json" false =
      .error (.PermissionError
        "Deletion/modification of existing files is not allowed: /data/out.json") :=
  ⟨(c4_write_new_exactly_when_absent fsEmpty "/data/out.json"
      ⟨"out.json", rfl, rfl⟩).1 rfl,
   (c4_write_new_exactly_when_absent (setContent fsEmpty "/data/out.json" "x")
      "/data/out.json" ⟨"out.json", rfl, rfl⟩).2 rfl⟩

/-- C5: the specification says the fixed repository path is exempt from
the new-files-only rule, so a second invocation with `/data/repo`
present passes the gate and proceeds to commit.  In the code the gate
is called with the default `allow_deletion=False`, so once `/data/repo`
exists the call raises `PermissionError` and no git command runs: the
clone-if-absent / commit-if-present logic below the check is dead for a
pre-existing repository. -/
theorem c5_second_invocation_denied :
    (createEmpty fsEmpty "/data/repo").exists_ "/data/repo" = true ∧
    clone_git_repo (fun _ => true) (createEmpty fsEmpty "/data/repo")
        "https://example.com/r.git" "update" =
      ⟨.error (.PermissionError
          "Deletion/modification of existing files is not allowed: /data/repo"),
        createEmpty fsEmpty "/data/repo", []⟩ :=
  ⟨rfl, rfl⟩

/-- C2: every operation runs all of its declared path checks before its
effect begins: whenever any declared check denies, the operation aborts
with a `PermissionError` (the policy violation), the filesystem is
untouched and the effect trace is empty — no network call, no
subprocess, no filesystem write, and no collaborator invoked. -/
theorem c2_policy_checked_before_any_effect :
    (∀ http fs url sp, (∃ e, enforce_security fs sp false = .error e) →
      policyAborted (fetch_and_save_data http fs url sp) fs) ∧
    (∀ run fs u msg, (∃ e, enforce_security fs "/data/repo" false = .error e) →
      policyAborted (clone_git_repo run fs u msg) fs) ∧
    (∀ execQ fs db q out, ((∃ e, enforce_security fs db false = .error e) ∨
        (∃ e, enforce_security fs out false = .error e)) →
      policyAborted (execute_sql_query execQ fs db q out) fs) ∧
    (∀ http ext fs url out, (∃ e, enforce_security fs out false = .error e) →
      policyAborted (scrape_website http ext fs url out) fs) ∧
    (∀ img fs ip outp r, ((∃ e, enforce_security fs ip false = .error e) ∨
        (∃ e, enforce_security fs outp false = .error e)) →
      policyAborted (process_image img fs ip outp r) fs) ∧
    (∀ tr fs ap outp, ((∃ e, enforce_security fs ap false = .error e) ∨
        (∃ e, enforce_security fs outp false = .error e)) →
      policyAborted (transcribe_audio tr fs ap outp) fs) ∧
    (∀ rd fs mp outp, ((∃ e, enforce_security fs mp false = .error e) ∨
        (∃ e, enforce_security fs outp false = .error e)) →
      policyAborted (convert_md_to_html rd fs mp outp) fs) ∧
    (∀ rc fs cp c v, (∃ e, enforce_security fs cp false = .error e) →
      policyAborted (filter_csv_handler rc fs cp c v) fs) := by
  refine ⟨?_, ?_, ?_, ?_, ?_, ?_, ?_, ?_⟩
  · intro http fs url sp hd
    exact abort_one fs sp _ (fun e he => fetch_gate http fs url sp e he) hd
  · intro run fs u msg hd
    exact abort_one fs "/data/repo" _ (fun e he => clone_gate run fs u msg e he) hd
  · intro execQ fs db q out hd
    exact abort_two fs db out _ (fun e he => sql_gate_db execQ fs db q out e he)
      (fun e h1 h2 => sql_gate_out execQ fs db q out e h1 h2) hd
  · intro http ext fs url out hd
    exact abort_one fs out _ (fun e he => scrape_gate http ext fs url out e he) hd
  · intro img fs ip outp r hd
    exact abort_two fs ip outp _ (fun e he => image_gate_in img fs ip outp r e he)
      (fun e h1 h2 => image_gate_out img fs ip outp r e h1 h2) hd
  · intro tr fs ap outp hd
    exact abort_two fs ap outp _ (fun e he => audio_gate_in tr fs ap outp e he)
      (fun e h1 h2 => audio_gate_out tr fs ap outp e h1 h2) hd
  · intro rd fs mp outp hd
    exact abort_two fs mp outp _ (fun e he => md_gate_in rd fs mp outp e he)
      (fun e h1 h2 => md_gate_out rd fs mp outp e h1 h2) hd
  · intro rc fs cp c v hd
    exact abort_one fs cp _ (fun e he => csv_gate rc fs cp c v e he) hd

/-- Witness for C2: a save path outside the sandbox makes fetch-and-save
abort with no effect, and an out-of-sandbox output path does the same
for the SQL action even when its database path would pass. -/
theorem c2_policy_checked_before_any_effect_witness :
    policyAborted (fetch_and_save_data (fun _ => ⟨200, "", "", none⟩) fsEmpty
      "http://x" "/etc/out.json") fsEmpty ∧
    policyAborted (execute_sql_query (fun _ _ => .ok []) fsEmpty
      "/data/a.db" "SELECT 1" "/tmp/out.json") fsEmpty :=
  ⟨c2_policy_checked_before_any_effect.1 (fun _ => ⟨200, "", "", none⟩) fsEmpty
      "http://x" "/etc/out.json"
      ⟨.PermissionError "Access outside /data is not allowed: /etc/out.json", rfl⟩,
   c2_policy_checked_before_any_effect.2.2.1 (fun _ _ => .ok []) fsEmpty
      "/data/a.db" "SELECT 1" "/tmp/out.json"
      (.inr ⟨.PermissionError "Access outside /data is not allowed: /tmp/out.json", rfl⟩)⟩

/-- C9: every operation calls the gate with `allow_deletion` left at its
default `False`, so whenever any checked path parameter — including the
read-only `image_path`, `audio_path`, `md_path`, `db_path`, `csv_path` —
already exists, the operation aborts with a `PermissionError` before
performing any effect.  The final conjunct shows the semantics of the
`allow_deletion=True` branch that no operation ever reaches: it would
permit every in-sandbox path regardless of existence. -/
theorem c9_existing_checked_path_always_denied :
    (∀ http fs url sp, fs.exists_ sp = true →
      policyAborted (fetch_and_save_data http fs url sp) fs) ∧
    (∀ run fs u msg, fs.exists_ "/data/repo" = true →
      policyAborted (clone_git_repo run fs u msg) fs) ∧
    (∀ execQ fs db q out, fs.exists_ db = true ∨ fs.exists_ out = true →
      policyAborted (execute_sql_query execQ fs db q out) fs) ∧
    (∀ http ext fs url out, fs.exists_ out = true →
      policyAborted (scrape_website http ext fs url out) fs) ∧
    (∀ img fs ip outp r, fs.exists_ ip = true ∨ fs.exists_ outp = true →
      policyAborted (process_image img fs ip outp r) fs) ∧
    (∀ tr fs ap outp, fs.exists_ ap = true ∨ fs.exists_ outp = true →
      policyAborted (transcribe_audio tr fs ap outp) fs) ∧
    (∀ rd fs mp outp, fs.exists_ mp = true ∨ fs.exists_ outp = true →
      policyAborted (convert_md_to_html rd fs mp outp) fs) ∧
    (∀ rc fs cp c v, fs.exists_ cp = true →
      policyAborted (filter_csv_handler rc fs cp c v) fs) ∧
    (∀ fs p, "/data".data.isPrefixOf p.data = true →
      enforce_security fs p true = .ok true) := by
  refine ⟨?_, ?_, ?_, ?_, ?_, ?_, ?_, ?_, ?_⟩
  · intro http fs url sp h
    exact abort_one fs sp _ (fun e he => fetch_gate http fs url sp e he)
      (exists_err_of_existing fs sp h)
  · intro run fs u msg h
    exact abort_one fs "/data/repo" _ (fun e he => clone_gate run fs u msg e he)
      (exists_err_of_existing fs "/data/repo" h)
  · intro execQ fs db q out h
    exact abort_two fs db out _ (fun e he => sql_gate_db execQ fs db q out e he)
      (fun e h1 h2 => sql_gate_out execQ fs db q out e h1 h2)
      (h.imp (exists_err_of_existing fs db) (exists_err_of_existing fs out))
  · intro http ext fs url out h
    exact abort_one fs out _ (fun e he => scrape_gate http ext fs url out e he)
      (exists_err_of_existing fs out h)
  · intro img fs ip outp r h
    exact abort_two fs ip outp _ (fun e he => image_gate_in img fs ip outp r e he)
      (fun e h1 h2 => image_gate_out img fs ip outp r e h1 h2)
      (h.imp (exists_err_of_existing fs ip) (exists_err_of_existing fs outp))
  · intro tr fs ap outp h
    exact abort_two fs ap outp _ (fun e he => audio_gate_in tr fs ap outp e he)
      (fun e h1 h2 => audio_gate_out tr fs ap outp e h1 h2)
      (h.imp (exists_err_of_existing fs ap) (exists_err_of_existing fs outp))
  · intro rd fs mp outp h
    exact abort_two fs mp outp _ (fun e he => md_gate_in rd fs mp outp e he)
      (fun e h1 h2 => md_gate_out rd fs mp outp e h1 h2)
      (h.imp (exists_err_of_existing fs mp) (exists_err_of_existing fs outp))
  · intro rc fs cp c v h
    exact abort_one fs cp _ (fun e he => csv_gate rc fs cp c v e he)
      (exists_err_of_existing fs cp h)
  · intro fs p h
    simp [enforce_security, h]

/-- Witness for C9: an existing image path (a read-only parameter)
aborts `process_image` with no effect; the unreached overwrite branch
would have permitted the same path. -/
theorem c9_existing_checked_path_always_denied_witness :
    policyAborted (process_image (fun _ _ => .ok "png")
      (createEmpty fsEmpty "/data/cat.png") "/data/cat.png" "/data/small.png" none)
      (createEmpty fsEmpty "/data/cat.png") ∧
    enforce_security (createEmpty fsEmpty "/data/cat.png") "/data/cat.png" true = .ok true :=
  ⟨c9_existing_checked_path_always_denied.2.2.2.2.1 (fun _ _ => .ok "png")
      (createEmpty fsEmpty "/data/cat.png") "/data/cat.png" "/data/small.png" none
      (.inl rfl),
   c9_existing_checked_path_always_denied.2.2.2.2.2.2.2.2
      (createEmpty fsEmpty "/data/cat.png") "/data/cat.png" rfl⟩

/-- C6: dispatching fetch-and-save with a fresh in-sandbox save path
against a collaborator answering 200 with the JSON object `{"a":1}`
succeeds and writes the pretty-printed text; the second, identical
dispatch — the file now existing — aborts with a `PermissionError`,
performs no effect and leaves the file content unchanged. -/
theorem c6_fetch_then_refetch :
    c6first.val = .ok () ∧
    c6first.fs.exists_ "/data/out.json" = true ∧
    c6first.fs.content "/data/out.json" = "\x7b\n    \"a\": 1\n\x7d" ∧
    c6second.val = .error (.PermissionError
      "Deletion/modification of existing files is not allowed: /data/out.json") ∧
    c6second.effects = [] ∧
    c6second.fs.content "/data/out.json" = "\x7b\n    \"a\": 1\n\x7d" ∧
    c6second.fs = c6first.fs :=
  ⟨rfl, rfl, rfl, rfl, rfl, rfl, rfl⟩

/-- C7 counterexample: the claim says a policy violation on the inbound
HTTP interface is answered with a client-error status.  In the code the
gate runs outside the `try` of the `filter_csv` route, so the raised
`PermissionError` escapes the handler and the client receives 500 — a
server-error, not a client-error. -/
theorem c7_policy_violation_returns_500 :
    (filter_csv csvStub fsEmpty "/etc/passwd" "a" "1").1.1 = 500 ∧
    isClientError (filter_csv csvStub fsEmpty "/etc/passwd" "a" "1").1.1 = false ∧
    isServerError (filter_csv csvStub fsEmpty "/etc/passwd" "a" "1").1.1 = true ∧
    (filter_csv csvStub fsEmpty "/etc/passwd" "a" "1").2 = [] :=
  ⟨rfl, rfl, rfl, rfl⟩

/-- C7 as amended: on the `filter_csv` route a sandbox-policy violation
is answered with the server-error status 500 (the exception escapes the
handler, which also reads nothing); the unknown-column validation
failure is answered with the client-error status 400; a downstream
read failure is answered with 500. -/
theorem c7_amended_status_mapping :
    (∀ rc fs p c v, (∃ e, enforce_security fs p false = .error e) →
      (filter_csv rc fs p c v).1.1 = 500 ∧
      isServerError (filter_csv rc fs p c v).1.1 = true ∧
      (filter_csv rc fs p c v).2 = []) ∧
    (∀ rc fs p c v df, enforce_security fs p false = .ok true →
      rc p = .ok df → ¬ (c ∈ df.columns) →
      (filter_csv rc fs p c v).1.1 = 400 ∧
      isClientError (filter_csv rc fs p c v).1.1 = true) ∧
    (∀ rc fs p c v msg, enforce_security fs p false = .ok true →
      rc p = .error msg → (filter_csv rc fs p c v).1.1 = 500) := by
  refine ⟨?_, ?_, ?_⟩
  · intro rc fs p c v hd
    obtain ⟨e, he⟩ := hd
    have h : filter_csv rc fs p c v = ((500, .errMsg "Internal Server Error"), []) := by
      unfold filter_csv filter_csv_handler flask_response
      rw [he]
    rw [h]
    exact ⟨rfl, rfl, rfl⟩
  · intro rc fs p c v df h1 h2 h3
    have h : filter_csv rc fs p c v =
        ((400, .errMsg ("Column \x27" ++ c ++ "\x27 does not exist")),
          [.fsRead p]) := by
      unfold filter_csv filter_csv_handler flask_response
      rw [h1, h2]
      simp [h3]
    rw [h]
    exact ⟨rfl, rfl⟩
  · intro rc fs p c v msg h1 h2
    have h : filter_csv rc fs p c v = ((500, .errMsg msg), [.fsRead p]) := by
      unfold filter_csv filter_csv_handler flask_response
      rw [h1, h2]
    rw [h]

/-- Witness for the amended C7: a policy violation answered with 500 and
an unknown column answered with 400, at concrete inputs. -/
theorem c7_amended_status_mapping_witness :
    ((filter_csv csvStub fsEmpty "/etc/x.csv" "a" "1").1.1 = 500 ∧
      isServerError (filter_csv csvStub fsEmpty "/etc/x.csv" "a" "1").1.1 = true ∧
      (filter_csv csvStub fsEmpty "/etc/x.csv" "a" "1").2 = []) ∧
    ((filter_csv csvStub fsEmpty "/data/t.csv" "zz" "1").1.1 = 400 ∧
      isClientError (filter_csv csvStub fsEmpty "/data/t.csv" "zz" "1").1.1 = true) :=
  ⟨c7_amended_status_mapping.1 csvStub fsEmpty "/etc/x.csv" "a" "1"
      ⟨.PermissionError "Access outside /data is not allowed: /etc/x.csv", rfl⟩,
   c7_amended_status_mapping.2.1 csvStub fsEmpty "/data/t.csv" "zz" "1"
      ⟨["a"], [[("a", "1")]]⟩ rfl rfl (by decide)⟩

/-- C8: the policy gate is deterministic and effect-free — its decision
is a function of the path, the intent flag and the filesystem state at
that path alone (so two calls on filesystems agreeing there decide
identically), and as a step on the world it leaves the filesystem
untouched and records no effect (it only stats). -/
theorem c8_gate_deterministic_effect_free :
    (∀ fs fs2 p a, fs.exists_ p = fs2.exists_ p →
      enforce_security fs p a = enforce_security fs2 p a) ∧
    (∀ fs p a, (gateStep fs p a).fs = fs ∧ (gateStep fs p a).effects = []) := by
  constructor
  · intro fs fs2 p a h
    unfold enforce_security
    rw [h]
  · intro fs p a
    exact ⟨rfl, rfl⟩

/-- Witness for C8: two different filesystems agreeing at the checked
path decide identically, and the gate step has no effect. -/
theorem c8_gate_deterministic_effect_free_witness :
    enforce_security fsEmpty "/data/a.txt" false =
      enforce_security (setContent fsEmpty "/data/b.txt" "x") "/data/a.txt" false ∧
    (gateStep fsEmpty "/data/a.txt" false).effects = [] :=
  ⟨c8_gate_deterministic_effect_free.1 fsEmpty
      (setContent fsEmpty "/data/b.txt" "x") "/data/a.txt" false (by decide),
   (c8_gate_deterministic_effect_free.2 fsEmpty "/data/a.txt" false).2⟩

/-- C10: when fetch-and-save receives a 200 response whose Content-Type
contains `application/json` but whose body parses to a JSON value that
is neither an object nor a string, the write branch hands the value to
the text write, which fails with an unwrapped `TypeError` — after the
output file has already been created empty by opening it for writing. -/
theorem c10_nonobject_json_type_error (http : String → HttpResponse) (fs : FS)
    (url sp : String) (v : JsonVal)
    (hgate : enforce_security fs sp false = .ok true)
    (hst : (http url).status_code = 200)
    (hct : hasInfix "application/json".data (http url).content_type.data = true)
    (hjson : (http url).jsonBody = some v)
    (hobj : v.isObj = false) (hstr : v.isStr = false) :
    fetch_and_save_data http fs url sp =
      ⟨.error (.TypeError "write() argument must be str"), createEmpty fs sp,
        [.netGet url, .fsWrite sp]⟩ ∧
    (createEmpty fs sp).exists_ sp = true ∧
    (createEmpty fs sp).content sp = "" := by
  refine ⟨?_, by simp [createEmpty], by simp [createEmpty]⟩
  unfold fetch_and_save_data
  rw [hgate]
  simp only [hst, hct, hjson, ne_eq, if_true, if_false]
  cases v with
  | obj fields => simp [JsonVal.isObj] at hobj
  | str s => simp [JsonVal.isStr] at hstr
  | arr elems => simp
  | num n => simp
  | boolean b => simp
  | null => simp

/-- Witness for C10: a 200 JSON response whose body is the array `[]`
is written neither pretty-printed nor as text — the operation fails
with `TypeError` and leaves `/data/out2.json` existing and empty. -/
theorem c10_nonobject_json_type_error_witness :
    fetch_and_save_data (fun _ => ⟨200, "application/json", "[]", some (.arr [])⟩)
      fsEmpty "http://x/arr" "/data/out2.json" =
      ⟨.error (.TypeError "write() argument must be str"),
        createEmpty fsEmpty "/data/out2.json",
        [.netGet "http://x/arr", .fsWrite "/data/out2.json"]⟩ ∧
    (createEmpty fsEmpty "/data/out2.json").exists_ "/data/out2.json" = true ∧
    (createEmpty fsEmpty "/data/out2.json").content "/data/out2.json" = "" :=
  c10_nonobject_json_type_error (fun _ => ⟨200, "application/json", "[]", some (.arr [])⟩)
    fsEmpty "http://x/arr" "/data/out2.json" (.arr []) rfl rfl rfl rfl rfl rfl

end TDS
